import Mathlib

/-!
Shallow embedding of `JavaGenerator::Generate`
(src/contrib/libs/protoc/src/google/protobuf/compiler/java/generator.cc).

The driver parses a list of (key, value) generator options into an `Options`
record, validates it (unknown keys, the lite/mutable conflict), fills in
defaults, selects variant file generators, validates them all, then generates
files, annotation files and the optional manifests.  External collaborators
(`FileGenerator`, `JavaPackageToDir`, the parameter splitter, the output sinks)
are modelled as parameters; the orchestration logic itself is translated
line by line from the source.
-/

namespace JavaGen

/-- The generator options record (`java/options.h`).  Field names follow the
source.  `output_list_file` and `annotation_list_file` are paths ("" = unset). -/
structure Options where
  output_list_file : String
  generate_immutable_code : Bool
  generate_mutable_code : Bool
  generate_shared_code : Bool
  enforce_lite : Bool
  annotate_code : Bool
  annotation_list_file : String
  opensource_runtime : Bool
deriving Repr, DecidableEq

/-- Modelled from the spec: the default-constructed `Options` value (its
definition lives in `java/options.h`, outside the sources).  Per the data-model
and Plan-Validator sections, all generation flags start unset (false) and both
list paths start empty; `opensource_runtime` is overwritten by the driver
immediately after construction, so its initial value is irrelevant. -/
def Options.init (osr : Bool) : Options :=
  { output_list_file := ""
    generate_immutable_code := false
    generate_mutable_code := false
    generate_shared_code := false
    enforce_lite := false
    annotate_code := false
    annotation_list_file := ""
    opensource_runtime := osr }

/-- The option-consuming `for` loop of `Generate` (generator.cc lines 78-99):
options are applied in order; the first unrecognized key aborts with the
"Unknown generator option" message. -/
def applyOptions (fo : Options) : List (String × String) → Except String Options
  | [] => .ok fo
  | (k, v) :: rest =>
    if k = "output_list_file" then
      applyOptions { fo with output_list_file := v } rest
    else if k = "immutable" then
      applyOptions { fo with generate_immutable_code := true } rest
    else if k = "mutable" then
      applyOptions { fo with generate_mutable_code := true } rest
    else if k = "shared" then
      applyOptions { fo with generate_shared_code := true } rest
    else if k = "lite" then
      applyOptions { fo with enforce_lite := true } rest
    else if k = "annotate_code" then
      applyOptions { fo with annotate_code := true } rest
    else if k = "annotation_list_file" then
      applyOptions { fo with annotation_list_file := v } rest
    else
      .error ("Unknown generator option: " ++ k)

/-- The fixed diagnostic for the lite/mutable conflict (generator.cc line 102). -/
def liteMutableMsg : String :=
  "lite runtime generator option cannot be used with mutable API."

/-- The post-loop validation and default-filling (generator.cc lines 101-112):
reject `enforce_lite && generate_mutable_code`; then, if none of the three
variant flags was set, default to immutable + shared. -/
def checkAndDefault (fo : Options) : Except String Options :=
  if fo.enforce_lite && fo.generate_mutable_code then
    .error liteMutableMsg
  else if !fo.generate_immutable_code && !fo.generate_mutable_code &&
      !fo.generate_shared_code then
    .ok { fo with generate_immutable_code := true, generate_shared_code := true }
  else
    .ok fo

/-- Whole option-validation phase: start from the default-constructed record
with `opensource_runtime` copied from the driver, run the option loop, then the
post-loop checks. -/
def validateParameter (osr : Bool) (opts : List (String × String)) :
    Except String Options :=
  match applyOptions (Options.init osr) opts with
  | .error e => .error e
  | .ok fo => checkAndDefault fo

/-- Keys the option loop recognizes (every other key is a hard error). -/
def recognizedKey (k : String) : Bool :=
  k = "output_list_file" || k = "immutable" || k = "mutable" || k = "shared" ||
  k = "lite" || k = "annotate_code" || k = "annotation_list_file"

/-- The externally observable behavior of one `FileGenerator` instance
(`java/file.cc` is outside the sources, so the collaborator is abstract).
`validateError = some msg` means `Validate` fails writing `msg` to the error
slot; `none` means it succeeds.  `java_package` and `classname` are the values
returned by the accessors of the same names.  `siblingFiles` are the paths
`GenerateSiblings` appends to the generated-file list, and
`siblingAnnotationFiles` the paths it appends to the annotation-file list when
code annotation is active (modelled from the spec: the Annotation Collector
performs no work and appends nothing when `annotate_code` is false). -/
structure VariantBehavior where
  validateError : Option String
  java_package : String
  classname : String
  siblingFiles : List String
  siblingAnnotationFiles : List String
deriving Repr, DecidableEq

/-- The `file_generators` vector (generator.cc lines 121-131): an
immutable-variant generator (constructed with `/* immutable = */ true`) when
`generate_immutable_code`, then a second generator (constructed with
`/* mutable = */ false`) when `generate_mutable_code`.  We record the Bool
passed to the `FileGenerator` constructor. -/
def file_generators (fo : Options) : List Bool :=
  (if fo.generate_immutable_code then [true] else []) ++
  (if fo.generate_mutable_code then [false] else [])

/-- The overall outcome of one `Generate` invocation.  `errorSlot` models the
caller-supplied `TProtoStringType* error` (`none` = never written).
`openedFiles` lists, in order, every path passed to `context->Open` by the
driver itself (opens performed inside the opaque `GenerateSiblings` are not
visible at this layer).  `outputListLines` / `annotationListLines` are the
lines written to the two manifest sinks (`none` = that sink never opened). -/
structure GenerateResult where
  success : Bool
  errorSlot : Option String
  openedFiles : List String
  all_files : List String
  all_annotation_files : List String
  outputListLines : Option (List String)
  annotationListLines : Option (List String)
deriving Repr, DecidableEq

/-- The generate-all loop (generator.cc lines 138-171) run over the variant
generators, threading the `all_files` / annotation accumulators and recording
every sink the driver opens.  Per variant: compute the package directory and
`<dir><classname>.java`, record it, record `<...>.java.pb.meta` when
annotating, open the primary sink, generate, append sibling files (and, when
annotating, sibling annotation files), then open and write the `.pb.meta`
sink when annotating. -/
def generateAll (fo : Options) (packageToDir : String → String) :
    List VariantBehavior → List String × List String × List String
  | [] => ([], [], [])
  | g :: rest =>
    let package_dir := packageToDir g.java_package
    let java_filename := package_dir ++ g.classname ++ ".java"
    let info_full_path := java_filename ++ ".pb.meta"
    let (opened, files, annos) := generateAll fo packageToDir rest
    (java_filename :: ((if fo.annotate_code then [info_full_path] else []) ++ opened),
     java_filename :: (g.siblingFiles ++ files),
     (if fo.annotate_code then info_full_path :: g.siblingAnnotationFiles else [])
       ++ annos)

/-- A failed run: `false` returned, the error slot written once, nothing
opened, both file lists empty, no manifest written. -/
def failResult (msg : String) : GenerateResult :=
  { success := false
    errorSlot := some msg
    openedFiles := []
    all_files := []
    all_annotation_files := []
    outputListLines := none
    annotationListLines := none }

/-- `JavaGenerator::Generate` (generator.cc lines 65-201).  Inputs: the
driver-level `opensource_runtime_` flag, the already-split option list
(`ParseGeneratorParameter` is an external pure splitter), the behavior of the
`FileGenerator` constructed for each immutable-flag value, and
`JavaPackageToDir` as an abstract path function.  Phases: option loop and
validation; variant selection; validate-all (first failure aborts with that
generator's message, before anything is opened); generate-all; then the two
optional manifests, each opening its sink only when its path is non-empty. -/
def Generate (osr : Bool) (opts : List (String × String))
    (env : Bool → VariantBehavior) (packageToDir : String → String) :
    GenerateResult :=
  match validateParameter osr opts with
  | .error e => failResult e
  | .ok fo =>
    let gens := (file_generators fo).map env
    match gens.findSome? (·.validateError) with
    | some e => failResult e
    | none =>
      let gfa := generateAll fo packageToDir gens
      let openedLists :=
        (if fo.output_list_file ≠ "" then [fo.output_list_file] else []) ++
        (if fo.annotation_list_file ≠ "" then [fo.annotation_list_file] else [])
      { success := true
        errorSlot := none
        openedFiles := gfa.1 ++ openedLists
        all_files := gfa.2.1
        all_annotation_files := gfa.2.2
        outputListLines := if fo.output_list_file ≠ "" then some gfa.2.1 else none
        annotationListLines :=
          if fo.annotation_list_file ≠ "" then some gfa.2.2 else none }

/-- Keys that set a boolean flag in the option loop. -/
def boolOptionKey (k : String) : Bool :=
  k = "immutable" || k = "mutable" || k = "shared" || k = "lite" ||
  k = "annotate_code"

/-- Keys that set a path field in the option loop. -/
def pathOptionKey (k : String) : Bool :=
  k = "output_list_file" || k = "annotation_list_file"

/-- The boolean flag a flag key writes (false for non-flag keys). -/
def flagField (k : String) (fo : Options) : Bool :=
  if k = "immutable" then fo.generate_immutable_code
  else if k = "mutable" then fo.generate_mutable_code
  else if k = "shared" then fo.generate_shared_code
  else if k = "lite" then fo.enforce_lite
  else if k = "annotate_code" then fo.annotate_code
  else false

section OptionLoopLemmas

/-- Flags are only ever set by the option loop, never cleared. -/
theorem applyOptions_flagField_mono {l : List (String × String)} {fo fo' : Options}
    {k : String} (happ : applyOptions fo l = Except.ok fo')
    (h : flagField k fo = true) : flagField k fo' = true := by
  induction l generalizing fo with
  | nil =>
    simp only [applyOptions] at happ
    cases happ
    exact h
  | cons p rest ih =>
    obtain ⟨k', v'⟩ := p
    simp only [applyOptions] at happ
    split_ifs at happ <;>
      first
        | exact absurd happ (by simp)
        | exact ih happ (by simp only [flagField] at h ⊢; split_ifs at h ⊢ <;>
            first | exact h | rfl)

/-- If the option loop succeeds and a flag key occurs in the option list, the
corresponding flag is set in the resulting configuration. -/
theorem applyOptions_flagField_of_mem {l : List (String × String)} {fo fo' : Options}
    {k : String} {v : String} (happ : applyOptions fo l = Except.ok fo')
    (hmem : (k, v) ∈ l) (hk : boolOptionKey k = true) : flagField k fo' = true := by
  induction l generalizing fo with
  | nil => cases hmem
  | cons p rest ih =>
    obtain ⟨k', v'⟩ := p
    rcases List.mem_cons.mp hmem with heq | htail
    · obtain ⟨hk1, _⟩ := Prod.mk.injEq .. ▸ heq
      subst hk1
      simp only [boolOptionKey, Bool.or_eq_true, decide_eq_true_eq] at hk
      rcases hk with ((((h1 | h2) | h3) | h4) | h5) <;> subst_vars <;>
        simp only [applyOptions, reduceIte, String.reduceEq] at happ <;>
        exact applyOptions_flagField_mono happ (by simp [flagField])
    · simp only [applyOptions] at happ
      split_ifs at happ <;>
        first
          | exact absurd happ (by simp)
          | exact ih happ htail

/-- Flags whose key does not occur in the option list are untouched by the
loop. -/
theorem applyOptions_flagField_of_not_mem {l : List (String × String)}
    {fo fo' : Options} {k : String} (happ : applyOptions fo l = Except.ok fo')
    (hno : ∀ p ∈ l, p.1 ≠ k) : flagField k fo' = flagField k fo := by
  induction l generalizing fo with
  | nil =>
    simp only [applyOptions] at happ
    cases happ
    rfl
  | cons p rest ih =>
    obtain ⟨k', v'⟩ := p
    have hk' : k' ≠ k := hno (k', v') (List.mem_cons_self ..)
    have hno' : ∀ p ∈ rest, p.1 ≠ k := fun p hp => hno p (List.mem_cons_of_mem _ hp)
    simp only [applyOptions] at happ
    split_ifs at happ with h1 h2 h3 h4 h5 h6 h7 <;>
      first
        | exact absurd happ (by simp)
        | exact (ih happ hno').trans (by
            simp only [flagField]
            all_goals split_ifs <;> first | rfl | (subst_vars; exact absurd rfl hk'))

/-- The option loop never fails on a list of recognized keys. -/
theorem applyOptions_ok_of_recognized {l : List (String × String)} (fo : Options)
    (hrec : ∀ p ∈ l, recognizedKey p.1 = true) :
    ∃ fo', applyOptions fo l = Except.ok fo' := by
  induction l generalizing fo with
  | nil => exact ⟨fo, rfl⟩
  | cons p rest ih =>
    obtain ⟨k', v'⟩ := p
    have hk' : recognizedKey k' = true := hrec (k', v') (List.mem_cons_self ..)
    have hrec' : ∀ p ∈ rest, recognizedKey p.1 = true :=
      fun p hp => hrec p (List.mem_cons_of_mem _ hp)
    simp only [recognizedKey, Bool.or_eq_true, decide_eq_true_eq] at hk'
    rcases hk' with ((((((h1 | h2) | h3) | h4) | h5) | h6) | h7) <;> subst_vars <;>
      simp only [applyOptions, reduceIte, String.reduceEq] <;> exact ih _ hrec'

/-- The first unrecognized key aborts the loop with its message, whatever
follows it. -/
theorem applyOptions_unknown {l₁ : List (String × String)} (fo : Options)
    (l₂ : List (String × String)) {k : String} (v : String)
    (h₁ : ∀ p ∈ l₁, recognizedKey p.1 = true) (hk : recognizedKey k = false) :
    applyOptions fo (l₁ ++ (k, v) :: l₂) =
      Except.error ("Unknown generator option: " ++ k) := by
  induction l₁ generalizing fo with
  | nil =>
    simp only [recognizedKey, Bool.or_eq_false_iff, decide_eq_false_iff_not] at hk
    obtain ⟨⟨⟨⟨⟨⟨n1, n2⟩, n3⟩, n4⟩, n5⟩, n6⟩, n7⟩ := hk
    simp only [List.nil_append, applyOptions, if_neg n1, if_neg n2, if_neg n3,
      if_neg n4, if_neg n5, if_neg n6, if_neg n7]
  | cons p rest ih =>
    obtain ⟨k', v'⟩ := p
    have hk' : recognizedKey k' = true := h₁ (k', v') (List.mem_cons_self ..)
    have h₁' : ∀ p ∈ rest, recognizedKey p.1 = true :=
      fun p hp => h₁ p (List.mem_cons_of_mem _ hp)
    simp only [recognizedKey, Bool.or_eq_true, decide_eq_true_eq] at hk'
    rcases hk' with ((((((h1 | h2) | h3) | h4) | h5) | h6) | h7) <;> subst_vars <;>
      simp only [List.cons_append, applyOptions, reduceIte, String.reduceEq] <;>
      exact ih _ h₁'

end OptionLoopLemmas

section ValidationLemmas

/-- Fields not touched by default-filling survive `checkAndDefault`. -/
theorem checkAndDefault_preserves {fo fo' : Options}
    (h : checkAndDefault fo = Except.ok fo') :
    fo'.annotate_code = fo.annotate_code ∧
    fo'.generate_mutable_code = fo.generate_mutable_code ∧
    fo'.enforce_lite = fo.enforce_lite ∧
    fo'.output_list_file = fo.output_list_file ∧
    fo'.annotation_list_file = fo.annotation_list_file := by
  simp only [checkAndDefault] at h
  split_ifs at h <;> cases h <;> simp

/-- When the annotation flag is off, the generate-all loop records no
annotation files at all. -/
theorem generateAll_annotations_nil {fo : Options}
    (hann : fo.annotate_code = false) (packageToDir : String → String) :
    ∀ gs : List VariantBehavior, (generateAll fo packageToDir gs).2.2 = [] := by
  intro gs
  induction gs with
  | nil => rfl
  | cons g rest ih => simp [generateAll, hann, ih]

end ValidationLemmas

section ClaimTheorems

/-- C2: if none of the keys `immutable`, `mutable`, `shared` occur and
validation succeeds, the configuration has `generate_immutable_code = true`,
`generate_shared_code = true` and `generate_mutable_code = false`. -/
theorem validateParameter_default_variant_flags {osr : Bool}
    {opts : List (String × String)} {fo : Options}
    (hkeys : ∀ p ∈ opts, p.1 ≠ "immutable" ∧ p.1 ≠ "mutable" ∧ p.1 ≠ "shared")
    (hv : validateParameter osr opts = Except.ok fo) :
    fo.generate_immutable_code = true ∧ fo.generate_shared_code = true ∧
    fo.generate_mutable_code = false := by
  rcases happ : applyOptions (Options.init osr) opts with e | fo₀
  · simp [validateParameter, happ] at hv
  · simp only [validateParameter, happ] at hv
    have himm := applyOptions_flagField_of_not_mem (k := "immutable") happ
      (fun p hp => (hkeys p hp).1)
    have hmut := applyOptions_flagField_of_not_mem (k := "mutable") happ
      (fun p hp => (hkeys p hp).2.1)
    have hsh := applyOptions_flagField_of_not_mem (k := "shared") happ
      (fun p hp => (hkeys p hp).2.2)
    simp only [flagField, String.reduceEq, reduceIte, Options.init] at himm hmut hsh
    rw [checkAndDefault, himm, hmut, hsh] at hv
    simp only [Bool.and_false, Bool.not_false, Bool.and_true, if_false, if_true,
      Bool.false_eq_true, reduceIte, Except.ok.injEq] at hv
    rw [← hv]
    exact ⟨rfl, rfl, rfl⟩

/-- C5: every configuration that survives validation has at least one of the
three variant flags set and never has `enforce_lite` together with
`generate_mutable_code`. -/
theorem validateParameter_postcondition_invariants {osr : Bool}
    {opts : List (String × String)} {fo : Options}
    (hv : validateParameter osr opts = Except.ok fo) :
    (fo.generate_immutable_code || fo.generate_mutable_code ||
      fo.generate_shared_code) = true ∧
    (fo.enforce_lite && fo.generate_mutable_code) = false := by
  rcases happ : applyOptions (Options.init osr) opts with e | fo₀
  · simp [validateParameter, happ] at hv
  · simp only [validateParameter, happ] at hv
    rw [checkAndDefault] at hv
    split_ifs at hv with hconf hdef <;> injection hv with hv <;> subst hv <;>
      rcases h1 : fo₀.generate_immutable_code with _ | _ <;>
      rcases h2 : fo₀.generate_mutable_code with _ | _ <;>
      rcases h3 : fo₀.generate_shared_code with _ | _ <;>
      rcases h4 : fo₀.enforce_lite with _ | _ <;>
      simp_all

/-- C4: an option sequence with only recognized keys that contains both `lite`
and `mutable`, in any order and with any other recognized keys, makes
`Generate` fail with the fixed lite/mutable diagnostic, with nothing opened. -/
theorem generate_lite_mutable_conflict_fails {osr : Bool}
    {opts : List (String × String)} (env : Bool → VariantBehavior)
    (p2d : String → String)
    (hrec : ∀ p ∈ opts, recognizedKey p.1 = true)
    (hl : ∃ v, ("lite", v) ∈ opts) (hm : ∃ v, ("mutable", v) ∈ opts) :
    Generate osr opts env p2d = failResult liteMutableMsg := by
  obtain ⟨fo₀, happ⟩ := applyOptions_ok_of_recognized (Options.init osr) hrec
  obtain ⟨v₁, hv₁⟩ := hl
  obtain ⟨v₂, hv₂⟩ := hm
  have hlite := applyOptions_flagField_of_mem happ hv₁ (by decide)
  have hmut := applyOptions_flagField_of_mem happ hv₂ (by decide)
  simp only [flagField, String.reduceEq, reduceIte] at hlite hmut
  simp [Generate, validateParameter, happ, checkAndDefault, hlite, hmut]

/-- C3: an option sequence whose first unrecognized key is `k` makes
`Generate` fail with the message naming `k`, whatever options (including a
lite/mutable conflict) appear before or after it, with nothing opened and
nothing generated. -/
theorem generate_unknown_option_fail_fast {osr : Bool}
    {l₁ : List (String × String)} {k : String} (v : String)
    (l₂ : List (String × String)) (env : Bool → VariantBehavior)
    (p2d : String → String)
    (h₁ : ∀ p ∈ l₁, recognizedKey p.1 = true) (hk : recognizedKey k = false) :
    Generate osr (l₁ ++ (k, v) :: l₂) env p2d =
      failResult ("Unknown generator option: " ++ k) := by
  have h := applyOptions_unknown (Options.init osr) l₂ v h₁ hk
  simp [Generate, validateParameter, h]

/-- C6: the selected variant sequence is the immutable-variant request
(constructor flag `true`) first when `generate_immutable_code`, then the
mutable-variant request (constructor flag `false`) when
`generate_mutable_code`; `generate_shared_code` contributes no request. -/
theorem file_generators_selection_order {osr : Bool}
    {opts : List (String × String)} {fo : Options}
    (_hv : validateParameter osr opts = Except.ok fo) :
    file_generators fo =
      (if fo.generate_immutable_code then [true] else []) ++
      (if fo.generate_mutable_code then [false] else []) ∧
    ∀ b, file_generators { fo with generate_shared_code := b } =
      file_generators fo :=
  ⟨rfl, fun _ => rfl⟩

/-- C7: a successful run whose options never mention `annotate_code` ends with
an empty annotation-file list, however many variants and siblings were
generated. -/
theorem generate_without_annotate_code_no_annotation_files {osr : Bool}
    {opts : List (String × String)} {env : Bool → VariantBehavior}
    {p2d : String → String}
    (hno : ∀ p ∈ opts, p.1 ≠ "annotate_code")
    (hs : (Generate osr opts env p2d).success = true) :
    (Generate osr opts env p2d).all_annotation_files = [] := by
  rcases hv : validateParameter osr opts with e | fo
  · simp [Generate, hv, failResult] at hs
  · have hfo : fo.annotate_code = false := by
      rcases happ : applyOptions (Options.init osr) opts with e' | fo₀
      · simp [validateParameter, happ] at hv
      · have h1 := applyOptions_flagField_of_not_mem (k := "annotate_code") happ hno
        simp only [flagField, String.reduceEq, reduceIte, Options.init] at h1
        have h2 := (checkAndDefault_preserves
          (by simpa [validateParameter, happ] using hv)).1
        rw [h2, h1]
    cases hfs : ((file_generators fo).map env).findSome? (fun g => g.validateError) with
    | none => simp [Generate, hv, hfs, generateAll_annotations_nil hfo]
    | some e => simp [Generate, hv, hfs, failResult] at hs

/-- C10: `Generate` returns true exactly when the caller's error slot was
never written; every path that writes the slot returns false. -/
theorem generate_success_iff_errorSlot_unwritten (osr : Bool)
    (opts : List (String × String)) (env : Bool → VariantBehavior)
    (p2d : String → String) :
    (Generate osr opts env p2d).success = true ↔
    (Generate osr opts env p2d).errorSlot = none := by
  rcases hv : validateParameter osr opts with e | fo
  · simp [Generate, hv, failResult]
  · cases hfs : ((file_generators fo).map env).findSome? (fun g => g.validateError) with
    | none => simp [Generate, hv, hfs]
    | some e => simp [Generate, hv, hfs, failResult]

/-- C1: when the validated configuration requests more than one variant and
some requested variant fails validation, `Generate` fails with no sink ever
opened and an empty generated-file list — validation of all variants precedes
any generation. -/
theorem generate_variantValidationFailure_aborts_before_output {osr : Bool}
    {opts : List (String × String)} {env : Bool → VariantBehavior}
    {p2d : String → String} {fo : Options}
    (hv : validateParameter osr opts = Except.ok fo)
    (_hmany : 1 < (file_generators fo).length)
    (hfail : ∃ b ∈ file_generators fo, (env b).validateError ≠ none) :
    (Generate osr opts env p2d).success = false ∧
    (Generate osr opts env p2d).openedFiles = [] ∧
    (Generate osr opts env p2d).all_files = [] := by
  cases hfs : ((file_generators fo).map env).findSome? (fun g => g.validateError) with
  | none =>
    obtain ⟨b, hb, hne⟩ := hfail
    exact absurd (List.findSome?_eq_none_iff.mp hfs (env b)
      (List.mem_map_of_mem env hb)) hne
  | some e => simp [Generate, hv, hfs, failResult]

/-- C8: on a successful run, a non-empty `output_list_file` produces a
manifest holding exactly the generated-file paths in generation order, a
non-empty `annotation_list_file` likewise for annotation files, and an empty
path means the corresponding manifest sink is never opened, without error. -/
theorem generate_manifest_semantics {osr : Bool}
    {opts : List (String × String)} {env : Bool → VariantBehavior}
    {p2d : String → String} {fo : Options}
    (hv : validateParameter osr opts = Except.ok fo)
    (hval : ∀ b ∈ file_generators fo, (env b).validateError = none) :
    (Generate osr opts env p2d).success = true ∧
    (fo.output_list_file ≠ "" →
      (Generate osr opts env p2d).outputListLines =
        some (Generate osr opts env p2d).all_files) ∧
    (fo.output_list_file = "" →
      (Generate osr opts env p2d).outputListLines = none) ∧
    (fo.annotation_list_file ≠ "" →
      (Generate osr opts env p2d).annotationListLines =
        some (Generate osr opts env p2d).all_annotation_files) ∧
    (fo.annotation_list_file = "" →
      (Generate osr opts env p2d).annotationListLines = none) := by
  have hfs : ((file_generators fo).map env).findSome? (fun g => g.validateError)
      = none :=
    List.findSome?_eq_none_iff.mpr (by
      intro g hg
      obtain ⟨b, hb, rfl⟩ := List.mem_map.mp hg
      exact hval b hb)
  refine ⟨?_, ?_, ?_, ?_, ?_⟩ <;> simp only [Generate, hv, hfs] <;>
    first
      | rfl
      | (intro h; simp [h])

end ClaimTheorems

section RepetitionLemmas

/-- Dropping a later occurrence of a boolean flag key whose flag is already
set does not change the option loop's outcome. -/
theorem applyOptions_flag_set_drop {k : String} (hk : boolOptionKey k = true)
    (w : String) (l₃ : List (String × String)) :
    ∀ (l₂ : List (String × String)) (fo : Options), flagField k fo = true →
      applyOptions fo (l₂ ++ (k, w) :: l₃) = applyOptions fo (l₂ ++ l₃) := by
  intro l₂
  induction l₂ with
  | nil =>
    intro fo h
    obtain ⟨o, im, mu, sh, el, an, al, os'⟩ := fo
    simp only [boolOptionKey, Bool.or_eq_true, decide_eq_true_eq] at hk
    rcases hk with (((h1 | h2) | h3) | h4) | h5 <;> subst_vars <;>
      simp_all [applyOptions, flagField]
  | cons p l₂' ih =>
    intro fo h
    obtain ⟨k', v'⟩ := p
    simp only [List.cons_append, applyOptions]
    split_ifs <;>
      first
        | rfl
        | exact ih _ (by
            simp only [flagField] at h ⊢
            all_goals split_ifs at h ⊢ <;> first | exact h | rfl)

/-- An earlier `output_list_file` value is overwritten by a later occurrence:
the loop result does not depend on it. -/
theorem applyOptions_output_list_overwrite (w : String)
    (l₃ : List (String × String)) :
    ∀ (l₂ : List (String × String)) (fo : Options) (v : String),
      applyOptions { fo with output_list_file := v }
          (l₂ ++ ("output_list_file", w) :: l₃) =
        applyOptions fo (l₂ ++ ("output_list_file", w) :: l₃) := by
  intro l₂
  induction l₂ with
  | nil => intro fo v; rfl
  | cons p l₂' ih =>
    intro fo v
    obtain ⟨k', v'⟩ := p
    simp only [List.cons_append, applyOptions]
    split_ifs
    · rfl
    · exact ih { fo with generate_immutable_code := true } v
    · exact ih { fo with generate_mutable_code := true } v
    · exact ih { fo with generate_shared_code := true } v
    · exact ih { fo with enforce_lite := true } v
    · exact ih { fo with annotate_code := true } v
    · exact ih { fo with annotation_list_file := v' } v
    · rfl

/-- An earlier `annotation_list_file` value is overwritten by a later
occurrence: the loop result does not depend on it. -/
theorem applyOptions_annotation_list_overwrite (w : String)
    (l₃ : List (String × String)) :
    ∀ (l₂ : List (String × String)) (fo : Options) (v : String),
      applyOptions { fo with annotation_list_file := v }
          (l₂ ++ ("annotation_list_file", w) :: l₃) =
        applyOptions fo (l₂ ++ ("annotation_list_file", w) :: l₃) := by
  intro l₂
  induction l₂ with
  | nil => intro fo v; rfl
  | cons p l₂' ih =>
    intro fo v
    obtain ⟨k', v'⟩ := p
    simp only [List.cons_append, applyOptions]
    split_ifs
    · exact ih { fo with output_list_file := v' } v
    · exact ih { fo with generate_immutable_code := true } v
    · exact ih { fo with generate_mutable_code := true } v
    · exact ih { fo with generate_shared_code := true } v
    · exact ih { fo with enforce_lite := true } v
    · exact ih { fo with annotate_code := true } v
    · rfl
    · rfl

/-- Suffixes that agree as loop continuations agree after any common prefix. -/
theorem applyOptions_append_congr {l l' : List (String × String)}
    (h : ∀ fo, applyOptions fo l = applyOptions fo l') :
    ∀ (l₁ : List (String × String)) (fo : Options),
      applyOptions fo (l₁ ++ l) = applyOptions fo (l₁ ++ l') := by
  intro l₁
  induction l₁ with
  | nil => intro fo; exact h fo
  | cons p rest ih =>
    intro fo
    obtain ⟨k', v'⟩ := p
    simp only [List.cons_append, applyOptions]
    split_ifs <;> first | rfl | exact ih _

end RepetitionLemmas

section RepetitionClaim

/-- C9: options apply in parse order with last-wins semantics: dropping a
repeated occurrence of a boolean flag key changes nothing (idempotence), and
for a path-valued key only the last occurrence matters (the earlier occurrence
can be dropped). -/
theorem option_repetition_semantics (osr : Bool)
    (l₁ l₂ l₃ : List (String × String)) (k v w : String) :
    (boolOptionKey k = true →
      validateParameter osr (l₁ ++ (k, v) :: (l₂ ++ (k, w) :: l₃)) =
        validateParameter osr (l₁ ++ (k, v) :: (l₂ ++ l₃))) ∧
    (pathOptionKey k = true →
      validateParameter osr (l₁ ++ (k, v) :: (l₂ ++ (k, w) :: l₃)) =
        validateParameter osr (l₁ ++ (l₂ ++ (k, w) :: l₃))) := by
  constructor
  · intro hk
    have hinner : ∀ fo, applyOptions fo ((k, v) :: (l₂ ++ (k, w) :: l₃)) =
        applyOptions fo ((k, v) :: (l₂ ++ l₃)) := by
      intro fo
      have hk' := hk
      simp only [boolOptionKey, Bool.or_eq_true, decide_eq_true_eq] at hk'
      rcases hk' with (((h1 | h2) | h3) | h4) | h5 <;> subst_vars <;>
        simp only [applyOptions, String.reduceEq, reduceIte] <;>
        exact applyOptions_flag_set_drop (by decide) w l₃ l₂ _ rfl
    rw [validateParameter, validateParameter,
      applyOptions_append_congr hinner l₁ (Options.init osr)]
  · intro hk
    have hinner : ∀ fo, applyOptions fo ((k, v) :: (l₂ ++ (k, w) :: l₃)) =
        applyOptions fo (l₂ ++ (k, w) :: l₃) := by
      intro fo
      simp only [pathOptionKey, Bool.or_eq_true, decide_eq_true_eq] at hk
      rcases hk with h1 | h2 <;> subst_vars <;>
        simp only [applyOptions, String.reduceEq, reduceIte] <;>
        first
          | exact applyOptions_output_list_overwrite w l₃ l₂ fo v
          | exact applyOptions_annotation_list_overwrite w l₃ l₂ fo v
    rw [validateParameter, validateParameter,
      applyOptions_append_congr hinner l₁ (Options.init osr)]

end RepetitionClaim

section Witnesses

/-- Concrete instance of the C1 theorem: both variants requested, validation
fails, nothing opened, nothing generated. -/
theorem generate_variantValidationFailure_aborts_before_output_witness :
    (Generate false [("immutable", ""), ("mutable", "")]
        (fun _ => ⟨some "validation failed", "p/", "C", [], []⟩) id).success = false ∧
    (Generate false [("immutable", ""), ("mutable", "")]
        (fun _ => ⟨some "validation failed", "p/", "C", [], []⟩) id).openedFiles = [] ∧
    (Generate false [("immutable", ""), ("mutable", "")]
        (fun _ => ⟨some "validation failed", "p/", "C", [], []⟩) id).all_files = [] :=
  @generate_variantValidationFailure_aborts_before_output false
    [("immutable", ""), ("mutable", "")]
    (fun _ => ⟨some "validation failed", "p/", "C", [], []⟩) id
    ⟨"", true, true, false, false, false, "", false⟩ rfl (by decide)
    ⟨true, by decide, by decide⟩

/-- Concrete instance of the C2 theorem at the empty option sequence. -/
theorem validateParameter_default_variant_flags_witness :
    (validateParameter false [] =
      Except.ok (⟨"", true, false, true, false, false, "", false⟩ : Options)) ∧
    ((⟨"", true, false, true, false, false, "", false⟩ : Options).generate_immutable_code = true ∧
     (⟨"", true, false, true, false, false, "", false⟩ : Options).generate_shared_code = true ∧
     (⟨"", true, false, true, false, false, "", false⟩ : Options).generate_mutable_code = false) :=
  ⟨rfl, @validateParameter_default_variant_flags false []
    ⟨"", true, false, true, false, false, "", false⟩ (by decide) rfl⟩

/-- Concrete instance of the C3 theorem: the unknown key wins even with a
lite/mutable conflict in the same sequence. -/
theorem generate_unknown_option_fail_fast_witness :
    Generate false ([("lite", "")] ++ ("frobnicate", "x") :: [("mutable", "")])
        (fun _ => ⟨none, "", "", [], []⟩) id =
      failResult ("Unknown generator option: " ++ "frobnicate") :=
  generate_unknown_option_fail_fast "x" [("mutable", "")]
    (fun _ => ⟨none, "", "", [], []⟩) id (by decide) (by decide)

/-- Concrete instance of the C4 theorem with scrambled key order. -/
theorem generate_lite_mutable_conflict_fails_witness :
    Generate false [("mutable", ""), ("shared", ""), ("lite", "")]
        (fun _ => ⟨none, "", "", [], []⟩) id = failResult liteMutableMsg :=
  generate_lite_mutable_conflict_fails (fun _ => ⟨none, "", "", [], []⟩) id
    (by decide) ⟨"", by decide⟩ ⟨"", by decide⟩

/-- Concrete instance of the C5 theorem at the option sequence `lite`. -/
theorem validateParameter_postcondition_invariants_witness :
    (validateParameter false [("lite", "")] =
      Except.ok (⟨"", true, false, true, true, false, "", false⟩ : Options)) ∧
    (((⟨"", true, false, true, true, false, "", false⟩ : Options).generate_immutable_code ||
      (⟨"", true, false, true, true, false, "", false⟩ : Options).generate_mutable_code ||
      (⟨"", true, false, true, true, false, "", false⟩ : Options).generate_shared_code) = true ∧
     ((⟨"", true, false, true, true, false, "", false⟩ : Options).enforce_lite &&
      (⟨"", true, false, true, true, false, "", false⟩ : Options).generate_mutable_code) = false) :=
  ⟨rfl, @validateParameter_postcondition_invariants false [("lite", "")]
    ⟨"", true, false, true, true, false, "", false⟩ rfl⟩

/-- Concrete instance of the C6 theorem at the defaulted configuration. -/
theorem file_generators_selection_order_witness :
    file_generators (⟨"", true, false, true, false, false, "", false⟩ : Options) =
      (if (⟨"", true, false, true, false, false, "", false⟩ : Options).generate_immutable_code
        then [true] else []) ++
      (if (⟨"", true, false, true, false, false, "", false⟩ : Options).generate_mutable_code
        then [false] else []) ∧
    ∀ b, file_generators
        { (⟨"", true, false, true, false, false, "", false⟩ : Options) with
          generate_shared_code := b } =
      file_generators (⟨"", true, false, true, false, false, "", false⟩ : Options) :=
  @file_generators_selection_order false []
    ⟨"", true, false, true, false, false, "", false⟩ rfl

/-- Concrete instance of the C7 theorem: siblings report annotation files but
none are recorded because `annotate_code` is off. -/
theorem generate_without_annotate_code_no_annotation_files_witness :
    (Generate false []
        (fun _ => ⟨none, "p/", "C", ["p/S.java"], ["p/S.java.pb.meta"]⟩)
        id).all_annotation_files = [] :=
  generate_without_annotate_code_no_annotation_files (by decide) rfl

/-- Concrete instance of the C8 theorem with a configured output list file. -/
theorem generate_manifest_semantics_witness :
    (Generate false [("output_list_file", "manifest.txt")]
        (fun _ => ⟨none, "com/", "Foo", ["com/FooX.java"], []⟩) id).success = true ∧
    ((⟨"manifest.txt", true, false, true, false, false, "", false⟩ : Options).output_list_file ≠ "" →
      (Generate false [("output_list_file", "manifest.txt")]
          (fun _ => ⟨none, "com/", "Foo", ["com/FooX.java"], []⟩) id).outputListLines =
        some (Generate false [("output_list_file", "manifest.txt")]
          (fun _ => ⟨none, "com/", "Foo", ["com/FooX.java"], []⟩) id).all_files) ∧
    ((⟨"manifest.txt", true, false, true, false, false, "", false⟩ : Options).output_list_file = "" →
      (Generate false [("output_list_file", "manifest.txt")]
          (fun _ => ⟨none, "com/", "Foo", ["com/FooX.java"], []⟩) id).outputListLines = none) ∧
    ((⟨"manifest.txt", true, false, true, false, false, "", false⟩ : Options).annotation_list_file ≠ "" →
      (Generate false [("output_list_file", "manifest.txt")]
          (fun _ => ⟨none, "com/", "Foo", ["com/FooX.java"], []⟩) id).annotationListLines =
        some (Generate false [("output_list_file", "manifest.txt")]
          (fun _ => ⟨none, "com/", "Foo", ["com/FooX.java"], []⟩) id).all_annotation_files) ∧
    ((⟨"manifest.txt", true, false, true, false, false, "", false⟩ : Options).annotation_list_file = "" →
      (Generate false [("output_list_file", "manifest.txt")]
          (fun _ => ⟨none, "com/", "Foo", ["com/FooX.java"], []⟩) id).annotationListLines = none) :=
  @generate_manifest_semantics false [("output_list_file", "manifest.txt")]
    (fun _ => ⟨none, "com/", "Foo", ["com/FooX.java"], []⟩) id
    ⟨"manifest.txt", true, false, true, false, false, "", false⟩ rfl (by decide)

/-- Concrete instance of the C9 theorem: a repeated `lite` flag is dropped, a
repeated `output_list_file` keeps only the last value. -/
theorem option_repetition_semantics_witness :
    (validateParameter false
        ([("shared", "x")] ++ ("lite", "a") :: ([("immutable", "y")] ++ ("lite", "b") :: [])) =
      validateParameter false
        ([("shared", "x")] ++ ("lite", "a") :: ([("immutable", "y")] ++ []))) ∧
    (validateParameter false
        ([] ++ ("output_list_file", "a") :: ([] ++ ("output_list_file", "b") :: [])) =
      validateParameter false ([] ++ ([] ++ ("output_list_file", "b") :: []))) :=
  ⟨(option_repetition_semantics false [("shared", "x")] [("immutable", "y")] []
      "lite" "a" "b").1 rfl,
   (option_repetition_semantics false [] [] [] "output_list_file" "a" "b").2 rfl⟩

end Witnesses

end JavaGen
